import Mathlib

/-!
Verification of the SystemMonitor-Optimizer rule engine and action dispatcher.

The development shallowly embeds the Python modules `main/rules.py` and
`main/actions.py`. Python dict/JSON values are modelled by the inductive
type `PyVal`; Python floats are modelled as exact rationals; fallible
Python code (code that can raise) returns `Except String _`, the error
string naming the exception class. Side effects of the action dispatcher
(console prints, log writes, SMTP traffic, history-file writes, desktop
notifications, remediation hooks) are modelled as an explicit `Effect`
trace, and the alert-history file as an explicit list of records threaded
through the functions that read and write it.
-/

/-- Model of the Python/JSON values flowing through the monitor: a metric
snapshot is a nested dict, leaves are numbers, strings, booleans, lists
or `None`. Dicts are insertion-ordered association lists. -/
inductive PyVal where
  | none
  | bool (b : Bool)
  | int (n : ℤ)
  | float (q : ℚ)
  | str (s : String)
  | list (xs : List PyVal)
  | dict (d : List (String × PyVal))

/-- First-match lookup of a key in a dict body: `data[key]` / `key in data`. -/
def lookupKey (k : String) : List (String × PyVal) → Option PyVal
  | [] => Option.none
  | (k', v) :: rest => if k' == k then some v else lookupKey k rest

/-- Model of `RulesEngine._get_nested_value` (rules.py:141-161): walk the
snapshot key by key; if a segment is absent or the current value is not a
dict the walk returns Python `None`, here `PyVal.none`. (A leaf that is
itself `None` is indistinguishable from a failed walk, exactly as in the
code.) -/
def getNestedValue (data : PyVal) (keys : List String) : PyVal :=
  match keys, data with
  | [], _ => data
  | k :: rest, .dict d =>
    match lookupKey k d with
    | some v => getNestedValue v rest
    | Option.none => .none
  | _ :: _, _ => .none

/-- Split a character list at every separator character recognised by `p`,
keeping empty pieces (the accumulator carries the current piece reversed). -/
def splitCharsAux (p : Char → Bool) : List Char → List Char → List (List Char)
  | [], acc => [acc.reverse]
  | c :: cs, acc =>
    if p c then acc.reverse :: splitCharsAux p cs []
    else splitCharsAux p cs (c :: acc)

/-- Split a character list at every separator character recognised by `p`. -/
def splitChars (p : Char → Bool) (cs : List Char) : List (List Char) :=
  splitCharsAux p cs []

/-- Model of Python `condition.split()`: split on whitespace and drop the
empty pieces between consecutive separators. -/
def pySplitWs (s : String) : List String :=
  ((splitChars Char.isWhitespace s.data).filter (fun t => !t.isEmpty)).map String.mk

/-- Model of Python `path.split('.')` as used on metric paths: split at
every dot, keeping empty pieces. -/
def splitDot (s : String) : List String :=
  (splitChars (fun c => c == '.') s.data).map String.mk

/-- Digits of a numeral read as a natural number. -/
def digitsToNat (ds : List Char) : ℕ :=
  ds.foldl (fun acc c => acc * 10 + (c.toNat - 48)) 0

/-- Magnitude of an unsigned decimal literal: plain digits, or digits with
a single dot where at least one side is nonempty (Python accepts `5.`,
`.5`). `none` when the characters are not such a literal. -/
def pyFloatMag (cs : List Char) : Option ℚ :=
  match splitChars (fun c => c == '.') cs with
  | [ip] =>
    if !ip.isEmpty && ip.all Char.isDigit then
      some ((digitsToNat ip : ℚ))
    else Option.none
  | [ip, fp] =>
    if (!ip.isEmpty || !fp.isEmpty) && ip.all Char.isDigit && fp.all Char.isDigit then
      some ((digitsToNat ip : ℚ) + (digitsToNat fp : ℚ) / (10 : ℚ) ^ fp.length)
    else Option.none
  | _ => Option.none

/-- Model of Python `float(s)` on the decimal literals the rule files use:
optional sign, then a decimal magnitude. `none` models the `ValueError`
raised on any other string (exponents, `inf`, `nan` and surrounding
whitespace are outside the modelled fragment). -/
def pyFloat? (s : String) : Option ℚ :=
  match s.data with
  | '-' :: rest => (pyFloatMag rest).map (fun q => -q)
  | '+' :: rest => pyFloatMag rest
  | cs => pyFloatMag cs

/-- Numeric view of a value for Python comparisons against a float: bools
are 0/1, ints and floats their numeric value; `none` for values of
non-numeric type. -/
def toNumeric : PyVal → Option ℚ
  | .bool b => some (if b then 1 else 0)
  | .int n => some ((n : ℚ))
  | .float q => some q
  | _ => Option.none

/-- Python ordered comparison `value <op> threshold` where the threshold is
a float: numeric values compare numerically, any other operand raises
`TypeError`. -/
def ordCompare (f : ℚ → ℚ → Bool) (v : PyVal) (t : ℚ) : Except String Bool :=
  match toNumeric v with
  | some q => .ok (f q t)
  | Option.none => .error "TypeError"

/-- Python `value == threshold` with a float threshold: numeric equality on
numbers, `False` for values of non-numeric type. -/
def eqCompare (v : PyVal) (t : ℚ) : Bool :=
  match toNumeric v with
  | some q => decide (q = t)
  | Option.none => false

/-- Model of `RulesEngine.evaluate` (rules.py:81-120): split the condition;
a token count other than 3 yields `False`; parse the threshold with
`float` (which raises on a malformed numeral); resolve the metric path,
`None` yields `False`; dispatch on the operator as the `operators` dict
does, an unknown operator yields `False`. -/
def evaluate (condition : String) (stats : PyVal) : Except String Bool :=
  match pySplitWs condition with
  | [metricPath, op, thresholdTok] =>
    match pyFloat? thresholdTok with
    | Option.none => .error "ValueError"
    | some threshold =>
      match getNestedValue stats (splitDot metricPath) with
      | .none => .ok false
      | current =>
        if op == ">" then ordCompare (fun x y => decide (x > y)) current threshold
        else if op == "<" then ordCompare (fun x y => decide (x < y)) current threshold
        else if op == ">=" then ordCompare (fun x y => decide (x ≥ y)) current threshold
        else if op == "<=" then ordCompare (fun x y => decide (x ≤ y)) current threshold
        else if op == "==" then .ok (eqCompare current threshold)
        else if op == "!=" then .ok (!eqCompare current threshold)
        else .ok false
  | _ => .ok false

/-- Round-half-to-even of a rational to an integer, the rounding used by
Python's builtin `round`. -/
def roundHalfEven (q : ℚ) : ℤ :=
  let f := ⌊q⌋
  let frac := q - (f : ℚ)
  if frac < 1/2 then f
  else if (1 : ℚ)/2 < frac then f + 1
  else if f % 2 = 0 then f else f + 1

/-- Model of Python `round(x, 2)` on the modelled (exact-rational) floats. -/
def pyRound2 (q : ℚ) : ℚ := (roundHalfEven (q * 100) : ℚ) / 100

/-- Model of `RulesEngine.extract_value` (rules.py:122-139): take the first
token of the condition (`split()[0]` raises `IndexError` on an
all-whitespace condition), resolve it, and round floats to 2 decimals;
every other value is returned unchanged. -/
def extractValue (condition : String) (stats : PyVal) : Except String PyVal :=
  match pySplitWs condition with
  | [] => .error "IndexError"
  | metricPath :: _ =>
    match getNestedValue stats (splitDot metricPath) with
    | .float q => .ok (.float (pyRound2 q))
    | v => .ok v

/-- Rule as stored in `rules.json`: display name, condition string,
severity string. -/
structure Rule where
  name : String
  condition : String
  severity : String

/-- Alert produced by `RulesEngine.check` for a triggered rule. -/
structure Alert where
  name : String
  severity : String
  current_value : PyVal

/-- Model of `RulesEngine.check` (rules.py:67-79): iterate the rule store
in order, appending one alert per rule whose condition evaluates true,
with the display value extracted from the snapshot. An exception raised
by `evaluate` or `extract_value` propagates. -/
def check (rules : List (String × Rule)) (stats : PyVal) : Except String (List Alert) :=
  match rules with
  | [] => .ok []
  | (_, r) :: rest =>
    match evaluate r.condition stats with
    | .error e => .error e
    | .ok false => check rest stats
    | .ok true =>
      match extractValue r.condition stats with
      | .error e => .error e
      | .ok v =>
        match check rest stats with
        | .error e => .error e
        | .ok tail => .ok ({ name := r.name, severity := r.severity, current_value := v } :: tail)

/-- Record appended to the alert-history file (actions.py:189-194); the
timestamp is the wall-clock time passed in by the environment. -/
structure AlertRecord where
  timestamp : String
  name : String
  severity : String
  current_value : PyVal

/-- Model of `Actions._save_to_history` (actions.py:175-207) acting on the
parsed content of the history file (a missing or corrupt file reads as
`[]`, per the code's fallback): append the record, then keep only the
last 1000 entries. -/
def saveToHistory (history : List AlertRecord) (record : AlertRecord) : List AlertRecord :=
  let h := history ++ [record]
  if h.length > 1000 then h.drop (h.length - 1000) else h

/-- Model of `Actions.get_alert_history` (actions.py:225-238): an absent
history file yields `[]`; a nonzero limit yields the last `limit` records
(Python `history[-limit:]`); `limit = 0` is falsy in Python, so the whole
history is returned. -/
def getAlertHistory (file : Option (List AlertRecord)) (limit : ℕ) : List AlertRecord :=
  match file with
  | Option.none => []
  | some history => if limit != 0 then history.drop (history.length - limit) else history

/-- Email section of `actions_config.json`. -/
structure EmailConfig where
  enabled : Bool
  smtp_server : String
  smtp_port : ℤ
  sender_email : String
  sender_password : String
  recipient_email : String

/-- Parsed `actions_config.json` as used by `Actions`. -/
structure ActionsConfig where
  email : EmailConfig
  log_file : String
  alert_history : String

/-- Alert dict as received by `Actions.execute`: the `severity` key may be
absent (`alert.get("severity", "info")`), modelled with `Option`. -/
structure PyAlert where
  name : String
  severity : Option String
  current_value : PyVal

/-- Observable side effects of the action dispatcher, in program order.
Console lines carry their static text (interpolated alert names included,
numeric formatting abstracted); the three remediation hooks of
`_handle_cpu_alert` / `_handle_memory_alert` / `_handle_disk_alert`,
whose bodies are single diagnostic prints, are modelled as dedicated
hook-invocation events. -/
inductive Effect where
  | console (msg : String)
  | consoleValue (v : PyVal)
  | logWrite (level : String) (name : String) (v : PyVal)
  | smtpSession (server : String) (port : ℤ)
  | historyWrite (file : String) (records : List AlertRecord)
  | osNotify (name : String) (v : PyVal)
  | cpuHook
  | memoryHook
  | diskHook

/-- Effect classifier: SMTP network traffic. -/
def Effect.isNetwork : Effect → Bool
  | .smtpSession _ _ => true
  | _ => false

/-- Effect classifier: a write to the alert-history file. -/
def Effect.isHistoryWrite : Effect → Bool
  | .historyWrite _ _ => true
  | _ => false

/-- Effect classifier: invocation of the CPU remediation hook. -/
def Effect.isCpuHook : Effect → Bool
  | .cpuHook => true
  | _ => false

/-- Effect classifier: invocation of the memory remediation hook. -/
def Effect.isMemoryHook : Effect → Bool
  | .memoryHook => true
  | _ => false

/-- Effect classifier: invocation of the disk remediation hook. -/
def Effect.isDiskHook : Effect → Bool
  | .diskHook => true
  | _ => false

/-- Effect classifier: any remediation hook. -/
def Effect.isHook : Effect → Bool
  | .cpuHook => true
  | .memoryHook => true
  | .diskHook => true
  | _ => false

/-- Effect classifier: a console line or an INFO-level log write, the only
emissions of `_handle_info`. -/
def Effect.isInfoEmission : Effect → Bool
  | .console _ => true
  | .consoleValue _ => true
  | .logWrite "INFO" _ _ => true
  | _ => false

/-- History record built by `_save_to_history` (actions.py:189-194) from
`alert['severity']`; the handlers that append to history run only when
the severity key is present. -/
def alertRecordOf (ts : String) (a : PyAlert) : AlertRecord :=
  { timestamp := ts, name := a.name, severity := a.severity.getD "", current_value := a.current_value }

/-- Model of `Actions._send_email` (actions.py:138-173): when email is
disabled in the configuration the function returns before any network
activity; when enabled it opens an SMTP session to the configured relay
(message construction and the caught delivery outcome are abstracted). -/
def sendEmail (cfg : ActionsConfig) (_a : PyAlert) : List Effect :=
  if cfg.email.enabled then [.smtpSession cfg.email.smtp_server cfg.email.smtp_port]
  else []

/-- Model of `Actions._handle_critical` (actions.py:84-99): console lines,
CRITICAL log write, email attempt, history append, desktop notification. -/
def handleCritical (cfg : ActionsConfig) (ts : String) (a : PyAlert) (hist : List AlertRecord) :
    List Effect × List AlertRecord :=
  let newHist := saveToHistory hist (alertRecordOf ts a)
  ([.console ("🚨 CRITICAL ALERT: " ++ a.name), .consoleValue a.current_value,
    .logWrite "CRITICAL" a.name a.current_value]
    ++ sendEmail cfg a
    ++ [.historyWrite cfg.alert_history newHist, .osNotify a.name a.current_value],
   newHist)

/-- Model of `Actions._handle_warning` (actions.py:101-110): console lines,
WARNING log write, history append. -/
def handleWarning (cfg : ActionsConfig) (ts : String) (a : PyAlert) (hist : List AlertRecord) :
    List Effect × List AlertRecord :=
  let newHist := saveToHistory hist (alertRecordOf ts a)
  ([.console ("⚠️  WARNING: " ++ a.name), .consoleValue a.current_value,
    .logWrite "WARNING" a.name a.current_value,
    .historyWrite cfg.alert_history newHist],
   newHist)

/-- Model of `Actions._handle_info` (actions.py:112-118): console lines and
an INFO log write only. -/
def handleInfo (a : PyAlert) : List Effect :=
  [.console ("ℹ️  INFO: " ++ a.name), .consoleValue a.current_value,
   .logWrite "INFO" a.name a.current_value]

/-- Substring test at each suffix of the haystack, used to model Python's
`needle in haystack`. -/
def containsSubAux (needle : List Char) : List Char → Bool
  | [] => needle.isEmpty
  | c :: rest => (c :: rest).take needle.length == needle || containsSubAux needle rest

/-- Model of Python `needle in hay` on strings: case-sensitive substring
containment. -/
def strContains (hay needle : String) : Bool :=
  containsSubAux needle.data hay.data

/-- Model of the topic branch of `Actions.execute` (actions.py:76-82): an
`if`/`elif` chain on case-sensitive substrings of the alert name, so at
most one hook is invoked and `CPU` takes precedence over `Memory`/`RAM`,
which take precedence over `Disk`. -/
def topicBranch (a : PyAlert) : List Effect :=
  if strContains a.name "CPU" then [.cpuHook]
  else if strContains a.name "Memory" || strContains a.name "RAM" then [.memoryHook]
  else if strContains a.name "Disk" then [.diskHook]
  else []

/-- Model of the severity branch of `Actions.execute` (actions.py:68-74):
read the severity with default `"info"` and run the matching handler; a
severity outside the three known values matches no handler. -/
def severityBranch (cfg : ActionsConfig) (ts : String) (a : PyAlert) (hist : List AlertRecord) :
    List Effect × List AlertRecord :=
  let severity := a.severity.getD "info"
  if severity == "critical" then handleCritical cfg ts a hist
  else if severity == "warning" then handleWarning cfg ts a hist
  else if severity == "info" then (handleInfo a, hist)
  else ([], hist)

/-- Model of `Actions.execute` (actions.py:57-82): the severity branch,
then the topic branch on the alert name. Returns the emitted effects in
order and the new history-file content. -/
def execute (cfg : ActionsConfig) (ts : String) (a : PyAlert) (hist : List AlertRecord) :
    List Effect × List AlertRecord :=
  let sev := severityBranch cfg ts a hist
  (sev.1 ++ topicBranch a, sev.2)

/-- Helper: the topic branch emits only remediation-hook invocations. -/
theorem topicBranch_any_eq_false (a : PyAlert) (p : Effect → Bool)
    (h1 : p .cpuHook = false) (h2 : p .memoryHook = false) (h3 : p .diskHook = false) :
    (topicBranch a).any p = false := by
  unfold topicBranch
  split
  · simp [h1]
  · split
    · simp [h2]
    · split
      · simp [h3]
      · rfl

/-- Helper: the email path emits no remediation hook. -/
theorem sendEmail_no_hooks (cfg : ActionsConfig) (a : PyAlert) :
    ∀ x ∈ sendEmail cfg a, Effect.isHook x = false := by
  intro x hx
  unfold sendEmail at hx
  by_cases hm : cfg.email.enabled
  · rw [if_pos hm] at hx
    simp at hx
    subst hx
    rfl
  · rw [if_neg hm] at hx
    simp at hx

/-- Helper: the severity branch never invokes a remediation hook. -/
theorem severityBranch_no_hooks (cfg : ActionsConfig) (ts : String) (a : PyAlert)
    (hist : List AlertRecord) :
    ∀ e ∈ (severityBranch cfg ts a hist).1, e.isHook = false := by
  intro e he
  simp only [severityBranch, beq_iff_eq] at he
  by_cases h1 : a.severity.getD "info" = "critical"
  · rw [if_pos h1] at he
    simp [handleCritical] at he
    rcases he with rfl | rfl | rfl | hx | rfl | rfl
    · rfl
    · rfl
    · rfl
    · exact sendEmail_no_hooks cfg a e hx
    · rfl
    · rfl
  · rw [if_neg h1] at he
    by_cases h2 : a.severity.getD "info" = "warning"
    · rw [if_pos h2] at he
      simp [handleWarning] at he
      rcases he with rfl | rfl | rfl | rfl <;> rfl
    · rw [if_neg h2] at he
      by_cases h3 : a.severity.getD "info" = "info"
      · rw [if_pos h3] at he
        simp [handleInfo] at he
        rcases he with rfl | rfl | rfl <;> rfl
      · rw [if_neg h3] at he
        simp at he

/-- Comparison `current_value <op> threshold` exactly as the specification
words it, for the six supported operator tokens; `false` on any other
token. Stated from the spec, to be compared with the source-derived
`evaluate`. -/
def directCompare (op : String) (x t : ℚ) : Bool :=
  if op == ">" then decide (x > t)
  else if op == "<" then decide (x < t)
  else if op == ">=" then decide (x ≥ t)
  else if op == "<=" then decide (x ≤ t)
  else if op == "==" then decide (x = t)
  else if op == "!=" then decide (x ≠ t)
  else false

/-- Snapshot `{"cpu": {"usage": 97.5}}` used by the specification's
examples. -/
def snapCpu : PyVal := .dict [("cpu", .dict [("usage", .float (195/2))])]

/-- C1: for a rule whose condition splits into exactly 3 tokens, whose
threshold token parses as a float, and whose metric path resolves to a
numeric value, `evaluate` returns exactly the direct comparison
`current_value <op> threshold` for each of the six supported operators,
and `false` for any other operator token. -/
theorem evaluate_matches_direct_comparison
    (condition : String) (stats : PyVal) (path op thrTok : String) (t q : ℚ)
    (hsplit : pySplitWs condition = [path, op, thrTok])
    (hthr : pyFloat? thrTok = some t)
    (hval : toNumeric (getNestedValue stats (splitDot path)) = some q) :
    (op ∈ [">", "<", ">=", "<=", "==", "!="] →
      evaluate condition stats = .ok (directCompare op q t)) ∧
    (op ∉ [">", "<", ">=", "<=", "==", "!="] →
      evaluate condition stats = .ok false) := by
  constructor
  · intro hop
    simp only [List.mem_cons, List.not_mem_nil, or_false] at hop
    rcases hop with rfl | rfl | rfl | rfl | rfl | rfl <;>
      cases hv : getNestedValue stats (splitDot path) <;>
        simp_all [evaluate, directCompare, ordCompare, eqCompare, toNumeric, decide_not]
  · intro hop
    simp only [List.mem_cons, List.not_mem_nil, or_false, not_or] at hop
    obtain ⟨h1, h2, h3, h4, h5, h6⟩ := hop
    cases hv : getNestedValue stats (splitDot path) <;>
      simp_all [evaluate, ordCompare, eqCompare, toNumeric, beq_iff_eq]

/-- Witness for C1 at the spec's example: condition `cpu.usage > 95`
against snapshot cpu.usage = 97.5 triggers. -/
theorem evaluate_matches_direct_comparison_witness :
    evaluate "cpu.usage > 95" snapCpu = .ok true := by
  have hthr : pyFloat? "95" = some 95 := by
    have hs : splitChars (fun c => c == '.') "95".data = [['9', '5']] := by decide
    simp [pyFloat?, pyFloatMag, hs, digitsToNat]
  have h := (evaluate_matches_direct_comparison "cpu.usage > 95" snapCpu
    "cpu.usage" ">" "95" 95 (195/2) (by decide) hthr rfl).1 (by simp)
  rw [h]
  norm_num [directCompare]

/-- Snapshot `{"cpu": {"status": "ok"}}`, whose `cpu.status` path resolves
to a non-numeric leaf. -/
def snapStatus : PyVal := .dict [("cpu", .dict [("status", .str "ok")])]

/-- Helper: `float("95")` parses to 95. -/
theorem pyFloat_95 : pyFloat? "95" = some 95 := by
  have hs : splitChars (fun c => c == '.') "95".data = [['9', '5']] := by decide
  simp [pyFloat?, pyFloatMag, hs, digitsToNat]

/-- C2 counterexample: two inputs inside the claim's own hypothesis class
where `evaluate` does not return false. With snapshot cpu.status = "ok"
the path resolves to a non-numeric leaf, yet `cpu.status != 5` evaluates
true (Python `"ok" != 5.0`); and with an empty snapshot the path `a.b`
is unresolvable, yet `a.b > x` raises `ValueError` from `float("x")`
before the path is even resolved. -/
theorem evaluate_soft_fail_counterexample :
    toNumeric (getNestedValue snapStatus (splitDot "cpu.status")) = Option.none ∧
    evaluate "cpu.status != 5" snapStatus = .ok true ∧
    getNestedValue (PyVal.dict []) (splitDot "a.b") = PyVal.none ∧
    evaluate "a.b > x" (PyVal.dict []) = .error "ValueError" :=
  ⟨rfl, rfl, rfl, rfl⟩

/-- C2 (amended): a condition with a token count other than 3 evaluates
false without raising; a 3-token condition whose threshold token parses
as a float and whose metric path resolution yields `None` (a segment
absent, an intermediate value not a mapping, or a `None` leaf) evaluates
false without raising. (A path resolving to a non-numeric, non-`None`
leaf is instead compared directly, so `!=` yields true and an ordered
operator raises `TypeError`; an unparsable threshold token raises
`ValueError`.) -/
theorem evaluate_soft_fail_amended (condition : String) (stats : PyVal) :
    ((pySplitWs condition).length ≠ 3 → evaluate condition stats = .ok false) ∧
    (∀ path op thrTok t, pySplitWs condition = [path, op, thrTok] →
      pyFloat? thrTok = some t →
      getNestedValue stats (splitDot path) = PyVal.none →
      evaluate condition stats = .ok false) := by
  constructor
  · intro hlen
    rcases hs : pySplitWs condition with _ | ⟨a, _ | ⟨b, _ | ⟨c, _ | ⟨d, rest⟩⟩⟩⟩ <;>
      simp_all [evaluate]
  · intro path op thrTok t hsplit hthr hnone
    simp [evaluate, hsplit, hthr, hnone]

/-- Witness for C2 (amended): a 2-token condition, and a 3-token condition
whose path is absent from the snapshot, both evaluate false. -/
theorem evaluate_soft_fail_amended_witness :
    evaluate "cpu.usage >" snapCpu = .ok false ∧
    evaluate "ram.percent > 95" snapCpu = .ok false :=
  ⟨(evaluate_soft_fail_amended "cpu.usage >" snapCpu).1 (by decide),
   (evaluate_soft_fail_amended "ram.percent > 95" snapCpu).2
     "ram.percent" ">" "95" 95 (by decide) pyFloat_95 rfl⟩

/-- C5: when the condition's metric path resolves to a float, `extract_value`
returns that value rounded to 2 decimal places; when it resolves to an
integer, the integer is returned unchanged. -/
theorem extract_value_rounds
    (condition : String) (stats : PyVal) (path : String) (rest : List String)
    (hsplit : pySplitWs condition = path :: rest) :
    (∀ q, getNestedValue stats (splitDot path) = .float q →
      extractValue condition stats = .ok (.float (pyRound2 q))) ∧
    (∀ n, getNestedValue stats (splitDot path) = .int n →
      extractValue condition stats = .ok (.int n)) := by
  constructor <;> intro v hv <;> simp [extractValue, hsplit, hv]

/-- Helper: Python `round(97.5, 2)` is 97.5. -/
theorem pyRound2_ninety_seven_half : pyRound2 ((195 : ℚ)/2) = 195/2 := by
  have h0 : ((195 : ℚ)/2) * 100 = ((9750 : ℤ) : ℚ) := by norm_num
  simp only [pyRound2, roundHalfEven, h0, Int.floor_intCast]
  norm_num

/-- Snapshot `{"mem": {"used": 3}}` with an integer leaf. -/
def snapMem : PyVal := .dict [("mem", .dict [("used", .int 3)])]

/-- Witness for C5: a float leaf is rounded (97.5 stays 97.5), an integer
leaf passes through. -/
theorem extract_value_rounds_witness :
    extractValue "cpu.usage > 95" snapCpu = .ok (.float (pyRound2 (195/2))) ∧
    extractValue "mem.used < 5" snapMem = .ok (.int 3) :=
  ⟨(extract_value_rounds "cpu.usage > 95" snapCpu "cpu.usage" [">", "95"] (by decide)).1
     (195/2) rfl,
   (extract_value_rounds "mem.used < 5" snapMem "mem.used" ["<", "5"] (by decide)).2
     3 rfl⟩

/-- Helper: the example rule's condition triggers on `snapCpu`. -/
theorem evaluate_cpu_crit : evaluate "cpu.usage > 95" snapCpu = .ok true := by
  have h : pySplitWs "cpu.usage > 95" = ["cpu.usage", ">", "95"] := by decide
  simp [evaluate, h, pyFloat_95, splitDot, getNestedValue, snapCpu, lookupKey, ordCompare,
    toNumeric]
  norm_num

/-- Helper: the display value extracted for the example rule is 97.5. -/
theorem extract_cpu_crit : extractValue "cpu.usage > 95" snapCpu = .ok (.float (195/2)) := by
  have h : pySplitWs "cpu.usage > 95" = ["cpu.usage", ">", "95"] := by decide
  have hg : getNestedValue snapCpu (splitDot "cpu.usage") = .float (195/2) := rfl
  simp [extractValue, h, hg, pyRound2_ninety_seven_half]

/-- Helper: a condition that evaluates true has a well-defined extracted
value (its token list is nonempty, so `split()[0]` cannot raise). -/
theorem extract_of_evaluate_true (c : String) (stats : PyVal)
    (h : evaluate c stats = .ok true) : ∃ v, extractValue c stats = .ok v := by
  rcases hs : pySplitWs c with _ | ⟨p, rest⟩
  · simp [evaluate, hs] at h
  · cases hv : getNestedValue stats (splitDot p) <;> simp [extractValue, hs, hv]

/-- Alert list the specification describes: one alert per rule whose
condition evaluates true, carrying the rule's display name, severity and
the extracted display value, in store order. -/
def triggeredAlerts (rules : List (String × Rule)) (stats : PyVal) : List Alert :=
  rules.filterMap fun p =>
    match evaluate p.2.condition stats, extractValue p.2.condition stats with
    | .ok true, .ok v => some { name := p.2.name, severity := p.2.severity, current_value := v }
    | _, _ => Option.none

/-- C3: whenever every rule's condition evaluates without raising, `check`
returns exactly one alert per triggered rule, carrying that rule's
display name, severity and the extracted snapshot value. -/
theorem check_collects_triggered
    (rules : List (String × Rule)) (stats : PyVal)
    (hok : ∀ p ∈ rules, ∃ b, evaluate p.2.condition stats = .ok b) :
    check rules stats = .ok (triggeredAlerts rules stats) := by
  induction rules with
  | nil => simp [check, triggeredAlerts]
  | cons hd tl ih =>
    obtain ⟨b, hb⟩ := hok hd (by simp)
    have htl := ih (fun p hp => hok p (by simp [hp]))
    cases b
    · simp [check, triggeredAlerts, List.filterMap_cons, hb, htl]
    · obtain ⟨v, hv⟩ := extract_of_evaluate_true _ _ hb
      simp [check, triggeredAlerts, List.filterMap_cons, hb, hv, htl]

/-- Rule store holding only the spec example's critical CPU rule. -/
def rulesCpuCrit : List (String × Rule) :=
  [("cpu_critical",
    { name := "Critical CPU Usage"
      condition := "cpu.usage > 95"
      severity := "critical" })]

/-- Witness for C3 at the spec's example: snapshot cpu.usage = 97.5 with
the single rule `cpu.usage > 95` (severity critical) yields exactly one
alert carrying name, severity and value 97.5. -/
theorem check_collects_triggered_witness :
    check rulesCpuCrit snapCpu =
      .ok [{ name := "Critical CPU Usage", severity := "critical",
             current_value := .float (195/2) }] := by
  have h := check_collects_triggered rulesCpuCrit snapCpu
    (fun p hp => by
      simp [rulesCpuCrit] at hp
      subst hp
      exact ⟨true, evaluate_cpu_crit⟩)
  rw [h]
  simp [triggeredAlerts, rulesCpuCrit, evaluate_cpu_crit, extract_cpu_crit]

/-- Helper: one `_save_to_history` append equals appending then keeping the
last 1000 records. -/
theorem saveToHistory_single (l : List AlertRecord) (r : AlertRecord) :
    saveToHistory l r = (l ++ [r]).drop ((l.length + 1) - 1000) := by
  unfold saveToHistory
  by_cases h : (l ++ [r]).length > 1000
  · rw [if_pos h]
    simp [List.length_append]
  · rw [if_neg h]
    simp only [List.length_append, List.length_singleton] at h ⊢
    have h0 : l.length + 1 - 1000 = 0 := by omega
    rw [h0, List.drop_zero]

/-- Helper: iterated `_save_to_history` appends keep exactly the most
recent 1000 of the combined record sequence, in order. -/
theorem saveToHistory_foldl (recs : List AlertRecord) :
    ∀ init : List AlertRecord, recs ≠ [] →
      recs.foldl saveToHistory init = (init ++ recs).drop ((init ++ recs).length - 1000) := by
  induction recs with
  | nil => exact fun _ h => absurd rfl h
  | cons r rs ih =>
    intro init _
    rcases eq_or_ne rs [] with rfl | hne
    · simpa using saveToHistory_single init r
    · rw [List.foldl_cons, ih _ hne, saveToHistory_single]
      have hA : init ++ r :: rs = (init ++ [r]) ++ rs := by simp
      have hD : ((init ++ [r]).drop ((init.length + 1) - 1000)) ++ rs
          = ((init ++ [r]) ++ rs).drop ((init.length + 1) - 1000) :=
        (List.drop_append_of_le_length (by simp; omega)).symm
      rw [hA, hD, List.drop_drop]
      refine congrFun (congrArg List.drop ?_) _
      simp only [List.length_drop, List.length_append, List.length_singleton]
      omega

/-- C4: starting from any history state, appending records one at a time
through `_save_to_history` leaves exactly `min (initial + appended) 1000`
records, namely the most recent 1000 of the combined sequence in their
original append order. -/
theorem save_to_history_bounded (init recs : List AlertRecord) (hne : recs ≠ []) :
    (recs.foldl saveToHistory init).length = min (init.length + recs.length) 1000 ∧
    recs.foldl saveToHistory init =
      (init ++ recs).drop ((init ++ recs).length - 1000) := by
  have h := saveToHistory_foldl recs init hne
  refine ⟨?_, h⟩
  rw [h, List.length_drop, List.length_append]
  omega

/-- Sample history record for witnesses. -/
def recSample : AlertRecord :=
  { timestamp := "2024-01-01T00:00:00"
    name := "Critical CPU Usage"
    severity := "critical"
    current_value := .float (195/2) }

/-- Witness for C4 at the spec's example size: 1050 appends starting from
the empty history leave exactly 1000 records, the most recent 1000 in
order. -/
theorem save_to_history_bounded_witness :
    ((List.replicate 1050 recSample).foldl saveToHistory []).length =
      min (List.length ([] : List AlertRecord) + (List.replicate 1050 recSample).length) 1000 ∧
    (List.replicate 1050 recSample).foldl saveToHistory [] =
      (([] : List AlertRecord) ++ List.replicate 1050 recSample).drop
        ((([] : List AlertRecord) ++ List.replicate 1050 recSample).length - 1000) :=
  save_to_history_bounded [] (List.replicate 1050 recSample)
    (by
      intro h
      have hl := congrArg List.length h
      rw [List.length_replicate, List.length_nil] at hl
      exact absurd hl (by norm_num))

/-- Helper: for a classifier that is false on every hook event, scanning
the whole effect trace of `execute` is the same as scanning the topic
branch alone. -/
theorem execute_any_eq (cfg : ActionsConfig) (ts : String) (a : PyAlert)
    (hist : List AlertRecord) (p : Effect → Bool)
    (h : ∀ e, Effect.isHook e = false → p e = false) :
    (execute cfg ts a hist).1.any p = (topicBranch a).any p := by
  unfold execute
  simp only [List.any_append]
  have hs : (severityBranch cfg ts a hist).1.any p = false := by
    rw [List.any_eq_false]
    intro e he
    simp [h e (severityBranch_no_hooks cfg ts a hist e he)]
  rw [hs]
  simp

/-- Default action configuration with email delivery disabled. -/
def cfgEmailOff : ActionsConfig :=
  { email :=
      { enabled := false
        smtp_server := "smtp.gmail.com"
        smtp_port := 587
        sender_email := "sender"
        sender_password := "secret"
        recipient_email := "admin" }
    log_file := "system_alerts.log"
    alert_history := "alert_history.json" }

/-- C6: a critical alert dispatched with email disabled still appends its
record to the alert history (the new history is exactly the bounded
append, and the history write is in the effect trace), and the trace
contains no SMTP network traffic. -/
theorem critical_email_disabled (cfg : ActionsConfig) (ts : String) (a : PyAlert)
    (hist : List AlertRecord)
    (hsev : a.severity = some "critical") (hmail : cfg.email.enabled = false) :
    (execute cfg ts a hist).2 = saveToHistory hist (alertRecordOf ts a) ∧
    (execute cfg ts a hist).1.any Effect.isNetwork = false ∧
    Effect.historyWrite cfg.alert_history (saveToHistory hist (alertRecordOf ts a)) ∈
      (execute cfg ts a hist).1 := by
  have htopic : (topicBranch a).any Effect.isNetwork = false :=
    topicBranch_any_eq_false a Effect.isNetwork rfl rfl rfl
  unfold execute severityBranch
  simp [hsev, handleCritical, sendEmail, hmail, htopic, List.any_append, Effect.isNetwork]

/-- Critical alert used by the dispatcher witnesses. -/
def alertCrit : PyAlert :=
  { name := "Critical CPU Usage"
    severity := some "critical"
    current_value := .float (195/2) }

/-- Witness for C6: dispatching the critical example alert with the default
(email-disabled) configuration writes history and touches no network. -/
theorem critical_email_disabled_witness :
    (execute cfgEmailOff "2024-01-01T00:00:00" alertCrit []).2 =
      saveToHistory [] (alertRecordOf "2024-01-01T00:00:00" alertCrit) ∧
    (execute cfgEmailOff "2024-01-01T00:00:00" alertCrit []).1.any Effect.isNetwork = false ∧
    Effect.historyWrite cfgEmailOff.alert_history
        (saveToHistory [] (alertRecordOf "2024-01-01T00:00:00" alertCrit)) ∈
      (execute cfgEmailOff "2024-01-01T00:00:00" alertCrit []).1 :=
  critical_email_disabled cfgEmailOff "2024-01-01T00:00:00" alertCrit [] rfl rfl

/-- C7: an info alert leaves the history unchanged, writes no history
record, sends no email, and its severity branch consists solely of
console lines and an INFO-level log write. -/
theorem info_alert_frame (cfg : ActionsConfig) (ts : String) (a : PyAlert)
    (hist : List AlertRecord) (hsev : a.severity = some "info") :
    (execute cfg ts a hist).2 = hist ∧
    (execute cfg ts a hist).1 = handleInfo a ++ topicBranch a ∧
    (execute cfg ts a hist).1.any Effect.isNetwork = false ∧
    (execute cfg ts a hist).1.any Effect.isHistoryWrite = false ∧
    (∀ e ∈ handleInfo a, e.isInfoEmission = true) := by
  have ht1 : (topicBranch a).any Effect.isNetwork = false :=
    topicBranch_any_eq_false a Effect.isNetwork rfl rfl rfl
  have ht2 : (topicBranch a).any Effect.isHistoryWrite = false :=
    topicBranch_any_eq_false a Effect.isHistoryWrite rfl rfl rfl
  refine ⟨?_, ?_, ?_, ?_, ?_⟩
  · unfold execute severityBranch
    simp [hsev]
  · unfold execute severityBranch
    simp [hsev]
  · unfold execute severityBranch
    simp [hsev, handleInfo, ht1, List.any_append, Effect.isNetwork]
  · unfold execute severityBranch
    simp [hsev, handleInfo, ht2, List.any_append, Effect.isHistoryWrite]
  · intro e he
    simp [handleInfo] at he
    rcases he with rfl | rfl | rfl <;> rfl

/-- Info alert used by the dispatcher witnesses. -/
def alertInfo : PyAlert :=
  { name := "Low CPU Frequency"
    severity := some "info"
    current_value := .float 800 }

/-- Witness for C7: dispatching an info alert against an empty history
leaves it empty and emits only INFO-level output besides the topic
branch. -/
theorem info_alert_frame_witness :
    (execute cfgEmailOff "t0" alertInfo []).2 = [] ∧
    (execute cfgEmailOff "t0" alertInfo []).1 = handleInfo alertInfo ++ topicBranch alertInfo ∧
    (execute cfgEmailOff "t0" alertInfo []).1.any Effect.isNetwork = false ∧
    (execute cfgEmailOff "t0" alertInfo []).1.any Effect.isHistoryWrite = false ∧
    (∀ e ∈ handleInfo alertInfo, e.isInfoEmission = true) :=
  info_alert_frame cfgEmailOff "t0" alertInfo [] rfl

/-- Alert whose name matches two topics at once. -/
def alertMulti : PyAlert :=
  { name := "Critical CPU Disk Usage"
    severity := some "info"
    current_value := .float 1 }

/-- C8 counterexample: an alert whose name contains both `CPU` and `Disk`
does not invoke the disk hook — the topic branch is an `elif` chain, so
only the first matching hook (CPU) runs, contradicting "invokes each
matching hook". -/
theorem topic_branch_counterexample :
    strContains alertMulti.name "CPU" = true ∧
    strContains alertMulti.name "Disk" = true ∧
    (execute cfgEmailOff "t0" alertMulti []).1.any Effect.isCpuHook = true ∧
    (execute cfgEmailOff "t0" alertMulti []).1.any Effect.isDiskHook = false :=
  ⟨by decide, by decide, by decide, by decide⟩

/-- C8 (amended): the topic branch runs after the severity branch as a
first-match `if`/`elif` chain on case-sensitive substrings of the alert
name — `CPU` first, otherwise `Memory`/`RAM`, otherwise `Disk` — so at
most one topic hook is invoked even when several substrings occur. -/
theorem topic_branch_first_match (cfg : ActionsConfig) (ts : String) (a : PyAlert)
    (hist : List AlertRecord) :
    (strContains a.name "CPU" = true →
      (execute cfg ts a hist).1.any Effect.isCpuHook = true ∧
      (execute cfg ts a hist).1.any Effect.isMemoryHook = false ∧
      (execute cfg ts a hist).1.any Effect.isDiskHook = false) ∧
    (strContains a.name "CPU" = false →
      (strContains a.name "Memory" || strContains a.name "RAM") = true →
      (execute cfg ts a hist).1.any Effect.isCpuHook = false ∧
      (execute cfg ts a hist).1.any Effect.isMemoryHook = true ∧
      (execute cfg ts a hist).1.any Effect.isDiskHook = false) ∧
    (strContains a.name "CPU" = false →
      (strContains a.name "Memory" || strContains a.name "RAM") = false →
      strContains a.name "Disk" = true →
      (execute cfg ts a hist).1.any Effect.isCpuHook = false ∧
      (execute cfg ts a hist).1.any Effect.isMemoryHook = false ∧
      (execute cfg ts a hist).1.any Effect.isDiskHook = true) ∧
    (strContains a.name "CPU" = false →
      (strContains a.name "Memory" || strContains a.name "RAM") = false →
      strContains a.name "Disk" = false →
      (execute cfg ts a hist).1.any Effect.isHook = false) := by
  have hc := execute_any_eq cfg ts a hist Effect.isCpuHook
    (by intro e; cases e <;> simp [Effect.isHook, Effect.isCpuHook])
  have hm := execute_any_eq cfg ts a hist Effect.isMemoryHook
    (by intro e; cases e <;> simp [Effect.isHook, Effect.isMemoryHook])
  have hd := execute_any_eq cfg ts a hist Effect.isDiskHook
    (by intro e; cases e <;> simp [Effect.isHook, Effect.isDiskHook])
  have hh := execute_any_eq cfg ts a hist Effect.isHook (fun _ he => he)
  refine ⟨fun h1 => ?_, fun h1 h2 => ?_, fun h1 h2 h3 => ?_, fun h1 h2 h3 => ?_⟩
  · rw [hc, hm, hd]
    refine ⟨?_, ?_, ?_⟩ <;>
      simp [topicBranch, h1, Effect.isCpuHook, Effect.isMemoryHook, Effect.isDiskHook]
  · rw [hc, hm, hd]
    refine ⟨?_, ?_, ?_⟩ <;>
      simp [topicBranch, h1, h2, Effect.isCpuHook, Effect.isMemoryHook, Effect.isDiskHook]
  · rw [hc, hm, hd]
    refine ⟨?_, ?_, ?_⟩ <;>
      simp [topicBranch, h1, h2, h3, Effect.isCpuHook, Effect.isMemoryHook, Effect.isDiskHook]
  · rw [hh]
    simp [topicBranch, h1, h2, h3]

/-- Warning alert whose name matches only the CPU topic. -/
def alertCpu : PyAlert :=
  { name := "High CPU Usage"
    severity := some "warning"
    current_value := .float 85 }

/-- Witness for C8 (amended): a name containing only `CPU` invokes exactly
the CPU hook. -/
theorem topic_branch_first_match_witness :
    (execute cfgEmailOff "t0" alertCpu []).1.any Effect.isCpuHook = true ∧
    (execute cfgEmailOff "t0" alertCpu []).1.any Effect.isMemoryHook = false ∧
    (execute cfgEmailOff "t0" alertCpu []).1.any Effect.isDiskHook = false :=
  (topic_branch_first_match cfgEmailOff "t0" alertCpu []).1 (by decide)

/-- C9: `get_alert_history` with limit 0 returns the entire stored history
(the `if limit` guard is falsy, not an empty slice); a positive limit
returns exactly the trailing `limit` records (all of them when fewer
exist); an absent history file yields the empty list. -/
theorem get_alert_history_semantics (file : Option (List AlertRecord)) (limit : ℕ) :
    (∀ h, file = some h → getAlertHistory file 0 = h) ∧
    (0 < limit → ∀ h, file = some h →
      getAlertHistory file limit = h.drop (h.length - limit) ∧
      (getAlertHistory file limit).length = min limit h.length ∧
      h.take (h.length - limit) ++ getAlertHistory file limit = h) ∧
    (file = Option.none → getAlertHistory file limit = []) := by
  refine ⟨?_, ?_, ?_⟩
  · intro h hf
    subst hf
    simp [getAlertHistory]
  · intro hl h hf
    subst hf
    have hne : (limit != 0) = true := by
      cases limit with
      | zero => omega
      | succ n => rfl
    refine ⟨by simp [getAlertHistory, hne], ?_, ?_⟩
    · simp only [getAlertHistory, hne, if_true, List.length_drop]
      omega
    · simp only [getAlertHistory, hne, if_true]
      exact List.take_append_drop _ h
  · intro hf
    subst hf
    rfl

/-- Second sample history record. -/
def recB : AlertRecord :=
  { timestamp := "2024-01-02T00:00:00"
    name := "High Memory Usage"
    severity := "warning"
    current_value := .float (873/10) }

/-- Witness for C9 on a two-record history: limit 0 returns both records,
limit 1 returns the last one, and an absent file returns nothing. -/
theorem get_alert_history_semantics_witness :
    getAlertHistory (some [recSample, recB]) 0 = [recSample, recB] ∧
    (getAlertHistory (some [recSample, recB]) 1 =
        [recSample, recB].drop ([recSample, recB].length - 1) ∧
      (getAlertHistory (some [recSample, recB]) 1).length = min 1 [recSample, recB].length ∧
      [recSample, recB].take ([recSample, recB].length - 1) ++
        getAlertHistory (some [recSample, recB]) 1 = [recSample, recB]) ∧
    getAlertHistory (Option.none : Option (List AlertRecord)) 5 = [] :=
  ⟨(get_alert_history_semantics (some [recSample, recB]) 0).1 _ rfl,
   (get_alert_history_semantics (some [recSample, recB]) 1).2.1 (by decide) _ rfl,
   (get_alert_history_semantics (Option.none : Option (List AlertRecord)) 5).2.2 rfl⟩

/-- C10: an alert without a severity key is dispatched exactly as severity
`info` (INFO emission only, history untouched, no email); an alert with
a severity outside critical/warning/info runs no severity handler at
all; the topic branch runs on the name in both cases. -/
theorem execute_severity_defaults (cfg : ActionsConfig) (ts : String) (a : PyAlert)
    (hist : List AlertRecord) :
    (a.severity = Option.none →
      (execute cfg ts a hist).1 = handleInfo a ++ topicBranch a ∧
      (execute cfg ts a hist).2 = hist ∧
      (execute cfg ts a hist).1.any Effect.isNetwork = false ∧
      (execute cfg ts a hist).1.any Effect.isHistoryWrite = false) ∧
    (∀ s, a.severity = some s → s ≠ "critical" → s ≠ "warning" → s ≠ "info" →
      (execute cfg ts a hist).1 = topicBranch a ∧
      (execute cfg ts a hist).2 = hist) := by
  have ht1 : (topicBranch a).any Effect.isNetwork = false :=
    topicBranch_any_eq_false a Effect.isNetwork rfl rfl rfl
  have ht2 : (topicBranch a).any Effect.isHistoryWrite = false :=
    topicBranch_any_eq_false a Effect.isHistoryWrite rfl rfl rfl
  constructor
  · intro h
    unfold execute severityBranch
    refine ⟨by simp [h], by simp [h], ?_, ?_⟩
    · simp [h, handleInfo, ht1, List.any_append, Effect.isNetwork]
    · simp [h, handleInfo, ht2, List.any_append, Effect.isHistoryWrite]
  · intro s h h1 h2 h3
    unfold execute severityBranch
    simp [h, h1, h2, h3]

/-- Alert dict without a severity key. -/
def alertNoSev : PyAlert :=
  { name := "Background Note"
    severity := Option.none
    current_value := .int 0 }

/-- Alert dict with an unknown severity value. -/
def alertOddSev : PyAlert :=
  { name := "Background Note 2"
    severity := some "debug"
    current_value := .int 0 }

/-- Witness for C10: a severity-less alert behaves as info, an alert with
severity `debug` runs only the topic branch. -/
theorem execute_severity_defaults_witness :
    ((execute cfgEmailOff "t0" alertNoSev []).1 =
        handleInfo alertNoSev ++ topicBranch alertNoSev ∧
      (execute cfgEmailOff "t0" alertNoSev []).2 = [] ∧
      (execute cfgEmailOff "t0" alertNoSev []).1.any Effect.isNetwork = false ∧
      (execute cfgEmailOff "t0" alertNoSev []).1.any Effect.isHistoryWrite = false) ∧
    ((execute cfgEmailOff "t0" alertOddSev []).1 = topicBranch alertOddSev ∧
      (execute cfgEmailOff "t0" alertOddSev []).2 = []) :=
  ⟨(execute_severity_defaults cfgEmailOff "t0" alertNoSev []).1 rfl,
   (execute_severity_defaults cfgEmailOff "t0" alertOddSev []).2 "debug" rfl
     (by decide) (by decide) (by decide)⟩
